import Mathlib

/-!
Verification of the quiz-extraction core of `src/main.py` (Parsing-info-master).

The embedding mirrors `_extract_quiz_options` and `_parse_quiz_from_html`:
JSON values decoded from the page's base64 config payloads are modelled by
`JVal` (with Python `str()` and truthiness semantics), the parsed HTML by a
`Node` tree, and BeautifulSoup's selector / `get_text` operations by
executable functions over that tree.  Python expressions that would raise
(e.g. calling `.get` / `.items()` on a non-dict) are modelled by `Option`,
`none` standing for an uncaught exception.
-/

namespace ParsingInfo

/-- JSON values as produced by `json.loads`.  JSON numbers are modelled as
integers (the config payloads of the page carry only strings and small
integers; floats are not needed by any claim). -/
inductive JVal where
  | str (s : String)
  | int (n : Int)
  | bool (b : Bool)
  | null
  | arr (l : List JVal)
  | obj (l : List (String × JVal))
deriving Repr

mutual

/-- Python `repr` of a decoded JSON value (string escaping is not modelled;
the values compared by the code are plain identifiers such as "0", "1",
"true"). -/
def pyRepr : JVal → String
  | .str s => "\x27" ++ s ++ "\x27"
  | .int n => toString n
  | .bool true => "True"
  | .bool false => "False"
  | .null => "None"
  | .arr l => "[" ++ pyReprArr l ++ "]"
  | .obj l => "\x7b" ++ pyReprObj l ++ "\x7d"

/-- `repr` of a JSON array's elements, comma separated. -/
def pyReprArr : List JVal → String
  | [] => ""
  | [v] => pyRepr v
  | v :: vs => pyRepr v ++ ", " ++ pyReprArr vs

/-- `repr` of a JSON object's entries, comma separated. -/
def pyReprObj : List (String × JVal) → String
  | [] => ""
  | [(k, v)] => "\x27" ++ k ++ "\x27: " ++ pyRepr v
  | (k, v) :: kvs => "\x27" ++ k ++ "\x27: " ++ pyRepr v ++ ", " ++ pyReprObj kvs

end

/-- Python `str()` of a decoded JSON value: `str` on a `str` is the string
itself, on anything else it agrees with `repr`. -/
def pyStr : JVal → String
  | .str s => s
  | v => pyRepr v

/-- Python truthiness of a decoded JSON value (`if x:`). -/
def truthy : JVal → Bool
  | .str s => s != ""
  | .int n => n != 0
  | .bool b => b
  | .null => false
  | .arr l => !l.isEmpty
  | .obj l => !l.isEmpty

/-- Python `.lower()` (ASCII case folding, which is all the code compares). -/
def pyLower (s : String) : String := ⟨s.data.map Char.toLower⟩

/-- Python `str.strip()` with no argument: drop leading and trailing
whitespace. -/
def pyStrip (s : String) : String :=
  ⟨((s.data.dropWhile Char.isWhitespace).reverse.dropWhile Char.isWhitespace).reverse⟩

/-- Prefix test on strings (CSS `[id^=...]`). -/
def strStarts (pre s : String) : Bool := pre.data.isPrefixOf s.data

/-- Lookup in a JSON object / Python dict.  `json.loads` and repeated
`result[qid] = data` assignments both give last-duplicate-wins semantics,
so we look the key up from the back. -/
def jlookup (l : List (String × JVal)) (k : String) : Option JVal :=
  (l.reverse.find? (fun kv => kv.1 == k)).map (·.2)

/-- Python `v.get(k)` (default `None`).  The outer `Option` is `none` when
`v` is not a dict (Python raises `AttributeError` there). -/
def dictGet? (v : JVal) (k : String) : Option (Option JVal) :=
  match v with
  | .obj l => some (jlookup l k)
  | _ => none

/-- Python `v.get(k, d)`; `none` when `v` is not a dict. -/
def dictGetD (v : JVal) (k : String) (d : JVal) : Option JVal :=
  (dictGet? v k).map (·.getD d)

/-- Parsed-HTML tree: element nodes carry tag, class list, other attributes
and children; text nodes carry their string. -/
inductive Node where
  | elem (tag : String) (classes : List String) (attrs : List (String × String)) (children : List Node)
  | text (s : String)
deriving Repr

/-- Tag of an element node. -/
def tagOf : Node → Option String
  | .elem t _ _ _ => some t
  | .text _ => none

/-- Attribute lookup (`el.get(name)`). -/
def attrOf : Node → String → Option String
  | .elem _ _ attrs _, k => attrs.lookup k
  | .text _, _ => none

/-- Class membership test (`.cls` selector). -/
def hasClass (c : String) : Node → Bool
  | .elem _ classes _ _ => classes.contains c
  | .text _ => false

mutual

/-- All text-node strings of a subtree, in document order
(BeautifulSoup's `.strings`). -/
def nodeTexts : Node → List String
  | .text s => [s]
  | .elem _ _ _ cs => nodeTextsL cs

/-- `nodeTexts` over a child list. -/
def nodeTextsL : List Node → List String
  | [] => []
  | n :: ns => nodeTexts n ++ nodeTextsL ns

end

/-- BeautifulSoup `get_text(sep, strip=True)`: strip every descendant
string, drop the empty ones, join with `sep`. -/
def getText (sep : String) (n : Node) : String :=
  String.intercalate sep (((nodeTexts n).map pyStrip).filter (fun s => s != ""))

mutual

/-- Element nodes of a subtree in preorder, the root included. -/
def subElems : Node → List Node
  | .text _ => []
  | .elem t c a cs => Node.elem t c a cs :: subElemsL cs

/-- `subElems` over a child list. -/
def subElemsL : List Node → List Node
  | [] => []
  | n :: ns => subElems n ++ subElemsL ns

end

/-- Proper descendant elements of a node in document order. -/
def descElems : Node → List Node
  | .text _ => []
  | .elem _ _ _ cs => subElemsL cs

/-- `el.select(simple-selector)`: descendant elements satisfying `p`. -/
def select (p : Node → Bool) (n : Node) : List Node :=
  (descElems n).filter p

/-- `el.select_one(simple-selector)`. -/
def selectOne (p : Node → Bool) (n : Node) : Option Node :=
  (select p n).head?

mutual

/-- Walker for a descendant-combinator selector `.anc .tgt`: `inside` is
true when some ancestor at or below the scope matched `pa`. -/
def selUnderN (pa pt : Node → Bool) (inside : Bool) : Node → List Node
  | .text _ => []
  | .elem t c a cs =>
    let e := Node.elem t c a cs
    (if inside && pt e then [e] else []) ++ selUnderL pa pt (inside || pa e) cs

/-- `selUnderN` over a child list. -/
def selUnderL (pa pt : Node → Bool) (inside : Bool) : List Node → List Node
  | [] => []
  | n :: ns => selUnderN pa pt inside n ++ selUnderL pa pt inside ns

end

/-- `el.select(".anc .tgt")`: descendants of `root` matching `pt` that have
an ancestor (the scope included) matching `pa`. -/
def selUnder (pa pt : Node → Bool) (root : Node) : List Node :=
  match root with
  | .text _ => []
  | .elem t c a cs => selUnderL pa pt (pa (.elem t c a cs)) cs

/-- `@dataclass AnswerOption` of `src/main.py`. -/
structure AnswerOption where
  text : String
  is_correct : Bool
  images : List String
deriving Repr, DecidableEq, Inhabited

/-- `@dataclass Question` of `src/main.py`. -/
structure Question where
  text : String
  options : List AnswerOption
  variants : List String
  correct_answer : List Nat
  images : List String
deriving Repr, DecidableEq, Inhabited

/-- `@dataclass Test` of `src/main.py`. -/
structure Test where
  title : String
  url : String
  questions : List Question
deriving Repr, DecidableEq, Inhabited

/-- One character of a URI scheme (RFC 3986 / `urllib.parse`). -/
def isSchemeChar (c : Char) : Bool :=
  c.isAlphanum || c == '+' || c == '-' || c == '.'

/-- Whether a URL string is already absolute, i.e. starts with
`<scheme>:` where the scheme is a nonempty alpha-led run of scheme
characters (the test `urllib.parse.urlsplit` applies). -/
def hasScheme (u : String) : Bool :=
  let s := u.data.takeWhile (· ≠ ':')
  u.data.contains ':' && !s.isEmpty && (s.headD '0').isAlpha && s.all isSchemeChar

/-- Split a character list at every occurrence of `c`. -/
def splitOnChar (c : Char) : List Char → List (List Char)
  | [] => [[]]
  | x :: xs =>
    let rest := splitOnChar c xs
    if x == c then [] :: rest
    else match rest with
      | [] => [[x]]
      | seg :: segs => (x :: seg) :: segs

/-- `scheme://host` part of a base URL, for root-relative references. -/
def originOf (b : String) : String :=
  match splitOnChar '/' b.data with
  | s :: [] :: host :: _ => (⟨s⟩ : String) ++ "//" ++ (⟨host⟩ : String)
  | _ => b

/-- Base URL with its last path segment dropped, for relative references. -/
def dirnameOf (b : String) : String :=
  let parts := splitOnChar '/' b.data
  if parts.length ≤ 3 then b ++ "/"
  else String.intercalate "/" (parts.dropLast.map fun l => (⟨l⟩ : String)) ++ "/"

/-- Modelled from the spec: `urllib.parse.urljoin` (library code, not under
`src/`).  "The Image Resolver takes a (possibly relative) source string and
the page's own URL and returns an absolute URL via standard base-URL
resolution"; an already-absolute URL (one carrying its own scheme) is
returned unchanged. -/
def urljoin (base url : String) : String :=
  if base == "" then url
  else if url == "" then base
  else if hasScheme url then url
  else if strStarts "//" url then (⟨base.data.takeWhile (· ≠ ':')⟩ : String) ++ ":" ++ url
  else if strStarts "/" url then originOf base ++ url
  else dirnameOf base ++ url

/-- The `<img>` URLs collected under an element: `for img_el in
el.select("img"): src = img_el.get("src"); if src:
append(urljoin(url, src))`. -/
def imgsOf (url : String) (el : Node) : List String :=
  (select (fun n => tagOf n == some "img") el).filterMap fun img =>
    match attrOf img "src" with
    | some src => if src == "" then none else some (urljoin url src)
    | none => none

/-- Python `x or ""` on an optional attribute value. -/
def pyOrEmpty (o : Option String) : String := o.getD ""

/-- `val in ("1", "true")`. -/
def valIn1True (val : String) : Bool := val == "1" || val == "true"

/-- The correctness test of the radio/checkbox branch applied to a dict
`m` and an answer id: `str(m.get(answer_id, "0")).lower() in ("1", "true")`. -/
def correctFlag (m : List (String × JVal)) (answer_id : String) : Bool :=
  valIn1True (pyLower (pyStr ((jlookup m answer_id).getD (.str "0"))))

/-- `field.select_one("input[id^=\x27ays-answer-\x27]")`. -/
def selectInput (field : Node) : Option Node :=
  selectOne (fun n =>
    tagOf n == some "input" &&
    (match attrOf n "id" with
     | some i => strStarts "ays-answer-" i
     | none => false)) field

/-- `field.select_one(f"label[for=\x27\x7binput_id\x7d\x27]")`. -/
def selectLabel (input_id : String) (field : Node) : Option Node :=
  selectOne (fun n => tagOf n == some "label" && attrOf n "for" == some input_id) field

/-- The loop body of the radio/checkbox branch over the `.ays-field`
elements.  `correct_map` is the raw `cfg.get("question_answer", {})`
value; `none` models the `AttributeError` Python raises when that value is
truthy but not a dict and a field with an input control is reached. -/
def radioLoop (url : String) (correct_map : JVal) : List Node → Option (List AnswerOption)
  | [] => some []
  | field :: rest =>
    match selectInput field with
    | none => radioLoop url correct_map rest
    | some input_el =>
      let answer_id := pyOrEmpty (attrOf input_el "value")
      let input_id := pyOrEmpty (attrOf input_el "id")
      let (text, img_urls) :=
        match selectLabel input_id field with
        | none => ("", ([] : List String))
        | some label_el => (getText " " label_el, imgsOf url label_el)
      (if truthy correct_map then
        match correct_map with
        | .obj m => some (correctFlag m answer_id)
        | _ => none
      else some false).bind fun is_correct =>
      (radioLoop url correct_map rest).map fun tail =>
      { text := text, is_correct := is_correct, images := img_urls } :: tail

/-- The per-field option of the radio/checkbox branch when the correctness
value is a dict `m`: `none` when the field has no matching input control
(the `continue` case). -/
def mkRadioOpt (url : String) (m : List (String × JVal)) (field : Node) : Option AnswerOption :=
  match selectInput field with
  | none => none
  | some input_el =>
    let answer_id := pyOrEmpty (attrOf input_el "value")
    let input_id := pyOrEmpty (attrOf input_el "id")
    let (text, img_urls) :=
      match selectLabel input_id field with
      | none => ("", ([] : List String))
      | some label_el => (getText " " label_el, imgsOf url label_el)
    some { text := text
           is_correct := !m.isEmpty && correctFlag m answer_id
           images := img_urls }

/-- The short-text branch: `ans = cfg.get("question_answer", "")`; a truthy
answer becomes the sole, correct, image-less option. -/
def shortTextOptions (cfg : JVal) : Option (List AnswerOption) :=
  (dictGetD cfg "question_answer" (.str "")).map fun ans =>
    if truthy ans then [{ text := pyStr ans, is_correct := true, images := [] }] else []

/-- Whether a JSON value may not be a Python dict key (`list`/`dict` are
unhashable; building `{v: k for k, v in ans_map.items()}` raises then). -/
def unhashable : JVal → Bool
  | .arr _ => true
  | .obj _ => true
  | _ => false

/-- Lookup in the inverse map `{v: k for k, v in ans_map.items()}` at a
string key: among entries of `ans_map` whose value equals the answer id,
the last one's key wins (later comprehension iterations overwrite). -/
def invLookup (ans_map : List (String × JVal)) (answer_id : String) : Option String :=
  (ans_map.reverse.find? (fun kv =>
    match kv.2 with
    | .str t => t == answer_id
    | _ => false)).map (·.1)

/-- `opt.select_one(".ays-matching-field-choice")`. -/
def selectChoice (opt : Node) : Option Node :=
  selectOne (hasClass "ays-matching-field-choice") opt

/-- `opt.select_one(".ays-matching-field-match")`. -/
def selectMatch (opt : Node) : Option Node :=
  selectOne (hasClass "ays-matching-field-match") opt

/-- The loop of the matching branch over `.ays-matching-field-option`
elements, given the (dict) `question_answer` map. -/
def matchLoop (url : String) (ans_map : List (String × JVal)) : List Node → List AnswerOption
  | [] => []
  | opt :: rest =>
    match selectChoice opt, selectMatch opt with
    | some choice_el, some match_el =>
      let choice_text := getText " " choice_el
      let img_urls := imgsOf url choice_el
      let answer_id := (attrOf match_el "data-answer-id").getD ""
      let text :=
        match invLookup ans_map answer_id with
        | some pos => choice_text ++ " -> " ++ pos
        | none => choice_text
      { text := text, is_correct := true, images := img_urls } :: matchLoop url ans_map rest
    | _, _ => matchLoop url ans_map rest

/-- `step.select(".ays-quiz-answers .ays-field")`. -/
def selectFields (step : Node) : List Node :=
  selUnder (hasClass "ays-quiz-answers") (hasClass "ays-field") step

/-- `step.select(".ays-matching-field .ays-matching-field-option")`. -/
def selectPairs (step : Node) : List Node :=
  selUnder (hasClass "ays-matching-field") (hasClass "ays-matching-field-option") step

/-- The matching branch: `none` models the exceptions Python raises when
`question_answer` is not a dict (`.items()`) or holds an unhashable value
(dict-comprehension key). -/
def matchingOptions (url : String) (cfg : JVal) (step : Node) : Option (List AnswerOption) :=
  (dictGetD cfg "question_answer" (.obj [])).bind fun am =>
    match am with
    | .obj m =>
      if m.any (fun kv => unhashable kv.2) then none
      else some (matchLoop url m (selectPairs step))
    | _ => none

/-- `q_type = cfg.get("question_type") or step.get("data-type") or "radio"`,
given the already-fetched `cfg.get("question_type")`. -/
def effType (qt : Option JVal) (step : Node) : JVal :=
  let fallback : JVal :=
    match attrOf step "data-type" with
    | some s => if s == "" then .str "radio" else .str s
    | none => .str "radio"
  match qt with
  | some v => if truthy v then v else fallback
  | none => fallback

/-- Python `q_type == s` for a string literal `s` (a non-string config
value never equals a string). -/
def typeIs (v : JVal) (s : String) : Bool :=
  match v with
  | .str t => t == s
  | _ => false

/-- `[i for i, opt in enumerate(options) if opt.is_correct]`. -/
def correctIdx (options : List AnswerOption) : List Nat :=
  (options.enum.filter (fun p => p.2.is_correct)).map (·.1)

/-- The per-type dispatch of `_parse_quiz_from_html` producing a block's
options list; `none` models an uncaught Python exception. -/
def blockOptions (url : String) (cfg : JVal) (q_type : JVal) (step : Node) :
    Option (List AnswerOption) :=
  if typeIs q_type "radio" || typeIs q_type "checkbox" then
    (dictGetD cfg "question_answer" (.obj [])).bind fun correct_map =>
      radioLoop url correct_map (selectFields step)
  else if typeIs q_type "short_text" then
    shortTextOptions cfg
  else if typeIs q_type "matching" then
    matchingOptions url cfg step
  else
    some []

/-- The body of the `for step in soup.select("div.step[data-question-id]")`
loop: one `Question` assembled from a block, or `none` on an uncaught
exception. -/
def parseStep (url : String) (quiz_options : List (String × JVal)) (step : Node) :
    Option Question :=
  let qid := (attrOf step "data-question-id").getD ""
  let cfg := (jlookup quiz_options qid).getD (.obj [])
  (dictGet? cfg "question_type").bind fun qt =>
  let q_type := effType qt step
  let q_block := selectOne (hasClass "ays_quiz_question") step
  let q_text := match q_block with | some b => getText " " b | none => ""
  let question_images := match q_block with | some b => imgsOf url b | none => []
  (blockOptions url cfg q_type step).map fun options =>
  { text := q_text
    options := options
    variants := options.map (·.text)
    correct_answer := correctIdx options
    images := question_images }

/-- The question-accumulating loop over the located blocks (`questions.append`
inside the `for`); an exception in one block aborts the page. -/
def collectQuestions (url : String) (quiz_options : List (String × JVal)) :
    List Node → Option (List Question)
  | [] => some []
  | step :: rest =>
    (parseStep url quiz_options step).bind fun q =>
    (collectQuestions url quiz_options rest).map fun qs => q :: qs

/-- `soup.select("div.step[data-question-id]")`. -/
def selectSteps (doc : Node) : List Node :=
  (subElems doc).filter fun n =>
    tagOf n == some "div" && hasClass "step" n && (attrOf n "data-question-id").isSome

/-- `soup.find("h1")`: first `h1` element of the document in preorder. -/
def findH1 (doc : Node) : Option Node :=
  ((subElems doc).filter (fun n => tagOf n == some "h1")).head?

/-- `_parse_quiz_from_html(url, html)` with the HTML already parsed into a
`Node` tree and the config payload already extracted into `quiz_options`. -/
def parseQuizFromHtml (url : String) (doc : Node)
    (quiz_options : List (String × JVal)) : Option Test :=
  let title := match findH1 doc with | some h => getText "" h | none => url
  (collectQuestions url quiz_options (selectSteps doc)).map fun questions =>
  { title := title, url := url, questions := questions }

/-- `_extract_quiz_options`, over the `QUIZ_OPTIONS_RE.findall` match list
(regex scanning is library code) and parameterised by the composite
`base64.b64decode` / `.decode("utf-8")` / `json.loads` pipeline (library
code as well): a match whose token fails to decode is skipped, the rest
keep their order; lookups use last-duplicate-wins (`result[qid] = data`). -/
def extractQuizOptions (decode : String → Option JVal)
    (ms : List (String × String)) : List (String × JVal) :=
  ms.filterMap fun m => (decode m.2).map fun data => (m.1, data)

/-- The composed pipeline on one page: extract configs from the raw match
list, then parse the document. -/
def parsePage (decode : String → Option JVal) (url : String) (doc : Node)
    (ms : List (String × String)) : Option Test :=
  parseQuizFromHtml url doc (extractQuizOptions decode ms)

/-! ### Concrete fixture documents for the spec's scenarios -/

/-- An `.ays-field` block: input control with id `ays-answer-<aid>` and
value `<aid>`, plus an associated label with the given children. -/
def answerField (aid : String) (label : List Node) : Node :=
  .elem "div" ["ays-field"] [] [
    .elem "input" [] [("id", "ays-answer-" ++ aid), ("value", aid)] [],
    .elem "label" [] [("for", "ays-answer-" ++ aid)] label]

/-- The radio block of the spec's concrete scenario: three answer fields
with ids "1", "2", "3". -/
def radioStep : Node :=
  .elem "div" ["step"] [("data-question-id", "52455")] [
    .elem "div" ["ays_quiz_question"] [] [.text "Which?"],
    .elem "div" ["ays-quiz-answers"] [] [
      answerField "1" [.text "Tashkent"],
      answerField "2" [.text "Samarkand"],
      answerField "3" [.text "Bukhara"]]]

/-- A page holding the radio block and a title heading. -/
def radioDoc : Node :=
  .elem "html" [] [] [.elem "h1" [] [] [.text "Demo test"], radioStep]

/-- `{"question_type": "radio", "question_answer": {"1": "0", "2": "1",
"3": "0"}}`. -/
def radioCfg : JVal :=
  .obj [("question_type", .str "radio"),
        ("question_answer", .obj [("1", .str "0"), ("2", .str "1"), ("3", .str "0")])]

/-- Extracted config mapping for `radioDoc`. -/
def radioQO : List (String × JVal) := [("52455", radioCfg)]

/-- The matching block of the spec's concrete scenario: two pairs in DOM
order, left texts "Cat" then "Dog", right answer-ids "b3" then "a7". -/
def matchStep : Node :=
  .elem "div" ["step"] [("data-question-id", "61")] [
    .elem "div" ["ays-matching-field"] [] [
      .elem "div" ["ays-matching-field-option"] [] [
        .elem "div" ["ays-matching-field-choice"] [] [.text "Cat"],
        .elem "div" ["ays-matching-field-match"] [("data-answer-id", "b3")] []],
      .elem "div" ["ays-matching-field-option"] [] [
        .elem "div" ["ays-matching-field-choice"] [] [.text "Dog"],
        .elem "div" ["ays-matching-field-match"] [("data-answer-id", "a7")] []]]]

/-- A page holding the matching block. -/
def matchDoc : Node := .elem "html" [] [] [matchStep]

/-- `{"question_type": "matching", "question_answer": {"1": "a7",
"2": "b3"}}`. -/
def matchCfg : JVal :=
  .obj [("question_type", .str "matching"),
        ("question_answer", .obj [("1", .str "a7"), ("2", .str "b3")])]

/-- Extracted config mapping for `matchDoc`. -/
def matchQO : List (String × JVal) := [("61", matchCfg)]

/-- A radio field whose label holds direct text "Paris", a nested
image-caption label with text "Eiffel photo", and an image. -/
def nestedLabelStep : Node :=
  .elem "div" ["step"] [("data-question-id", "77")] [
    .elem "div" ["ays-quiz-answers"] [] [
      .elem "div" ["ays-field"] [] [
        .elem "input" [] [("id", "ays-answer-9"), ("value", "1")] [],
        .elem "label" [] [("for", "ays-answer-9")] [
          .text "Paris",
          .elem "label" ["ays-answer-image-caption"] [] [.text "Eiffel photo"],
          .elem "img" [] [("src", "http://site/eiffel.png")] []]]]]

/-- A page holding the nested-label block (no config entry: plain radio). -/
def nestedLabelDoc : Node := .elem "html" [] [] [nestedLabelStep]

/-- A radio block whose single answer field has an input control but no
associated label element. -/
def noLabelStep : Node :=
  .elem "div" ["step"] [("data-question-id", "88")] [
    .elem "div" ["ays-quiz-answers"] [] [
      .elem "div" ["ays-field"] [] [
        .elem "input" [] [("id", "ays-answer-5"), ("value", "7")] []]]]

/-- A page holding the label-less block (no config entry). -/
def noLabelDoc : Node := .elem "html" [] [] [noLabelStep]

/-- A radio block with two answer fields, ids "1" and "2". -/
def twoFieldStep : Node :=
  .elem "div" ["step"] [("data-question-id", "99")] [
    .elem "div" ["ays-quiz-answers"] [] [
      answerField "1" [.text "Yes"],
      answerField "2" [.text "No"]]]

/-- A page holding the two-field radio block. -/
def twoFieldDoc : Node := .elem "html" [] [] [twoFieldStep]

/-- A radio config marking both answers correct:
`{"question_type": "radio", "question_answer": {"1": "1", "2": "true"}}`. -/
def twoTruthyQO : List (String × JVal) :=
  [("99", .obj [("question_type", .str "radio"),
                ("question_answer", .obj [("1", .str "1"), ("2", .str "true")])])]

/-- A block with only a question body (no fields), for short-text configs. -/
def shortStep : Node :=
  .elem "div" ["step"] [("data-question-id", "42")] [
    .elem "div" ["ays_quiz_question"] [] [.text "Name it"]]

/-- A page holding the short-text block. -/
def shortDoc : Node := .elem "html" [] [] [shortStep]

/-- `{"question_type": "short_text", "question_answer": ""}`. -/
def shortEmptyQO : List (String × JVal) :=
  [("42", .obj [("question_type", .str "short_text"), ("question_answer", .str "")])]

/-- A block carrying `data-type="matching"` and one complete pair, with no
config entry available for it. -/
def matchFallbackStep : Node :=
  .elem "div" ["step"] [("data-question-id", "9"), ("data-type", "matching")] [
    .elem "div" ["ays-matching-field"] [] [
      .elem "div" ["ays-matching-field-option"] [] [
        .elem "div" ["ays-matching-field-choice"] [] [.text "A"],
        .elem "div" ["ays-matching-field-match"] [("data-answer-id", "x")] []]]]

/-- A page holding the matching-fallback block. -/
def matchFallbackDoc : Node := .elem "html" [] [] [matchFallbackStep]

/-- A block with one answer field, no `data-type` attribute and no config
entry: the radio-default fallback scenario. -/
def radioFallbackStep : Node :=
  .elem "div" ["step"] [("data-question-id", "9")] [
    .elem "div" ["ays-quiz-answers"] [] [
      answerField "1" [.text "Only"]]]

/-- A page holding the radio-fallback block. -/
def radioFallbackDoc : Node := .elem "html" [] [] [radioFallbackStep]

/-! ### Helper lemmas -/

/-- When the correctness value is a dict, the radio/checkbox loop never
raises and its options are the per-field extractions. -/
lemma radioLoop_eq_filterMap (url : String) (m : List (String × JVal)) :
    ∀ fields, radioLoop url (.obj m) fields = some (fields.filterMap (mkRadioOpt url m)) := by
  intro fields
  induction fields with
  | nil => rfl
  | cons f rest ih =>
    simp only [radioLoop, List.filterMap_cons, mkRadioOpt]
    cases hinp : selectInput f with
    | none => simpa using ih
    | some inp =>
      cases m with
      | nil => simp [truthy, ih]
      | cons kv tl => simp [truthy, ih, List.isEmpty]

/-- A field with no matching input control contributes nothing. -/
lemma radioLoop_skip (url : String) (cm : JVal) (field : Node) (rest : List Node)
    (h : selectInput field = none) :
    radioLoop url cm (field :: rest) = radioLoop url cm rest := by
  simp [radioLoop, h]

/-- When the correctness value is falsy, every produced option is
incorrect. -/
lemma radioLoop_falsy (url : String) (cm : JVal) (hcm : truthy cm = false) :
    ∀ fields opts, radioLoop url cm fields = some opts →
      ∀ o ∈ opts, o.is_correct = false := by
  intro fields
  induction fields with
  | nil => intro opts h o ho; simp only [radioLoop, Option.some.injEq] at h; subst h; simp at ho
  | cons f rest ih =>
    intro opts h o ho
    cases hinp : selectInput f with
    | none =>
      simp only [radioLoop, hinp] at h
      exact ih opts h o ho
    | some inp =>
      rw [radioLoop, hinp, hcm] at h
      simp only [Bool.false_eq_true, if_false, Option.bind_eq_bind, Option.some_bind,
        Option.map_eq_some'] at h
      obtain ⟨tail, htail, rfl⟩ := h
      rcases List.mem_cons.mp ho with rfl | hmem
      · rfl
      · exact ih tail htail o hmem

/-- `correct_answer` has one entry per correct option. -/
lemma correctIdx_length (opts : List AnswerOption) :
    (correctIdx opts).length = opts.countP (·.is_correct) := by
  simp only [correctIdx, List.length_map, ← List.countP_eq_length_filter]
  have h : opts.enum.map Prod.snd = opts := List.enum_map_snd opts
  calc opts.enum.countP (fun p => p.2.is_correct)
      = (opts.enum.map Prod.snd).countP (·.is_correct) := by
        rw [List.countP_map]; rfl
    _ = opts.countP (·.is_correct) := by rw [h]

/-- Pairs of `enum` carry strictly increasing first components. -/
lemma enum_pairwise_fst {α : Type} (l : List α) :
    l.enum.Pairwise (fun a b => a.1 < b.1) := by
  rw [List.pairwise_iff_getElem]
  intro i j hi hj hij
  simp only [List.getElem_enum]
  simpa using hij

/-- `correct_answer` is strictly increasing. -/
lemma correctIdx_sorted (opts : List AnswerOption) :
    (correctIdx opts).Pairwise (· < ·) := by
  unfold correctIdx
  rw [List.pairwise_map]
  exact List.Pairwise.sublist (List.filter_sublist _) (enum_pairwise_fst opts)

/-- `correct_answer` holds exactly the valid indices of correct options. -/
lemma mem_correctIdx (opts : List AnswerOption) (j : Nat) :
    j ∈ correctIdx opts ↔ ∃ h : j < opts.length, (opts.get ⟨j, h⟩).is_correct = true := by
  simp only [correctIdx, List.mem_map, List.mem_filter]
  constructor
  · rintro ⟨⟨i, o⟩, ⟨hmem, hc⟩, rfl⟩
    rw [List.mem_enum_iff_getElem?] at hmem
    simp only at hmem hc ⊢
    rcases List.getElem?_eq_some.mp hmem with ⟨hlt, hval⟩
    exact ⟨hlt, by rw [List.get_eq_getElem, hval]; exact hc⟩
  · rintro ⟨h, hc⟩
    refine ⟨(j, opts.get ⟨j, h⟩), ⟨?_, hc⟩, rfl⟩
    rw [List.mem_enum_iff_getElem?]
    simp [List.getElem?_eq_some, h]

/-- Destructuring a successful block parse: the `variants` and
`correct_answer` fields are the stated projections of `options`. -/
lemma parseStep_some {url : String} {qo : List (String × JVal)} {step : Node}
    {q : Question} (h : parseStep url qo step = some q) :
    q.variants = q.options.map (·.text) ∧ q.correct_answer = correctIdx q.options := by
  unfold parseStep at h
  simp only [Option.bind_eq_bind, Option.bind_eq_some, Option.map_eq_some'] at h
  obtain ⟨qt, _, opts, _, rfl⟩ := h
  exact ⟨rfl, rfl⟩

/-- Every question of a successful collection comes from one block. -/
lemma mem_collectQuestions {url : String} {qo : List (String × JVal)} :
    ∀ {steps : List Node} {qs : List Question},
      collectQuestions url qo steps = some qs →
      ∀ q ∈ qs, ∃ s ∈ steps, parseStep url qo s = some q := by
  intro steps
  induction steps with
  | nil =>
    intro qs h q hq
    simp only [collectQuestions, Option.some.injEq] at h
    subst h; simp at hq
  | cons s rest ih =>
    intro qs h q hq
    simp only [collectQuestions, Option.bind_eq_bind, Option.bind_eq_some,
      Option.map_eq_some'] at h
    obtain ⟨q0, hq0, qs0, hqs0, rfl⟩ := h
    rcases List.mem_cons.mp hq with rfl | hmem
    · exact ⟨s, List.mem_cons_self .., hq0⟩
    · obtain ⟨s1, hs1, hp⟩ := ih hqs0 q hmem
      exact ⟨s1, List.mem_cons_of_mem _ hs1, hp⟩

/-- Every question of a successful page parse comes from one located block. -/
lemma mem_parseQuizFromHtml {url : String} {doc : Node}
    {qo : List (String × JVal)} {t : Test}
    (h : parseQuizFromHtml url doc qo = some t) :
    ∀ q ∈ t.questions, ∃ s ∈ selectSteps doc, parseStep url qo s = some q := by
  unfold parseQuizFromHtml at h
  simp only [Option.map_eq_some'] at h
  obtain ⟨qs, hqs, rfl⟩ := h
  exact mem_collectQuestions hqs

/-- Whether an answer field would be marked correct under the dict mapping
`m`: it has an input control and `m` is non-empty and the mapped value of
its answer id passes the "1"/"true" test. -/
def fieldCorrect (m : List (String × JVal)) (f : Node) : Bool :=
  match selectInput f with
  | some inp => !m.isEmpty && correctFlag m (pyOrEmpty (attrOf inp "value"))
  | none => false

/-- The correctness flag of a per-field extraction is `fieldCorrect`. -/
lemma mkRadioOpt_isCorrect {url : String} {m : List (String × JVal)}
    {f : Node} {o : AnswerOption} (h : mkRadioOpt url m f = some o) :
    o.is_correct = fieldCorrect m f := by
  unfold mkRadioOpt at h
  unfold fieldCorrect
  cases hinp : selectInput f with
  | none => rw [hinp] at h; exact absurd h (by simp)
  | some inp =>
    rw [hinp] at h
    simp only [Option.some.injEq] at h
    subst h
    rfl

/-- The number of correct options of a radio/checkbox block equals the
number of fields passing `fieldCorrect`. -/
lemma countP_filterMap_correct (url : String) (m : List (String × JVal)) :
    ∀ fields : List Node, (fields.filterMap (mkRadioOpt url m)).countP (·.is_correct) =
      fields.countP (fieldCorrect m) := by
  intro fields
  induction fields with
  | nil => rfl
  | cons f rest ih =>
    rw [List.filterMap_cons, List.countP_cons]
    cases hmk : mkRadioOpt url m f with
    | none =>
      have hfc : fieldCorrect m f = false := by
        unfold mkRadioOpt at hmk
        unfold fieldCorrect
        cases hinp : selectInput f with
        | none => rfl
        | some inp => rw [hinp] at hmk; exact absurd hmk (by simp)
      rw [hfc]
      simpa using ih
    | some o =>
      rw [List.countP_cons, ih, mkRadioOpt_isCorrect hmk]

/-- The question `radioDoc`/`radioQO` parses to. -/
def radioQ : Question :=
  { text := "Which?"
    options := [{ text := "Tashkent", is_correct := false, images := [] },
                { text := "Samarkand", is_correct := true, images := [] },
                { text := "Bukhara", is_correct := false, images := [] }]
    variants := ["Tashkent", "Samarkand", "Bukhara"]
    correct_answer := [1]
    images := [] }

/-- The test `radioDoc`/`radioQO` parses to. -/
def radioT : Test :=
  { title := "Demo test", url := "http://page/t", questions := [radioQ] }

/-! ### Claims -/

/-- C6: for every assembled Question, `len(variants) == len(options)` and
`variants[i] == options[i].text` for every index `i`, and `correctAnswer`
is a strictly increasing sequence of valid 0-based indices into `options`,
namely exactly the positions where `isCorrect` is true. -/
theorem c6_question_invariants :
    ∀ (url : String) (doc : Node) (qo : List (String × JVal)) (t : Test),
      parseQuizFromHtml url doc qo = some t →
      ∀ q ∈ t.questions,
        q.variants.length = q.options.length ∧
        q.variants = q.options.map (·.text) ∧
        (∀ i : Nat, q.variants[i]? = (q.options[i]?).map (·.text)) ∧
        List.Pairwise (· < ·) q.correct_answer ∧
        (∀ j, j ∈ q.correct_answer ↔
          ∃ h : j < q.options.length, (q.options.get ⟨j, h⟩).is_correct = true) := by
  intro url doc qo t h q hq
  obtain ⟨s, _, hps⟩ := mem_parseQuizFromHtml h q hq
  obtain ⟨hv, hc⟩ := parseStep_some hps
  refine ⟨by rw [hv, List.length_map], hv, ?_, ?_, ?_⟩
  · intro i
    rw [hv, List.getElem?_map]
  · rw [hc]
    exact correctIdx_sorted _
  · intro j
    rw [hc]
    exact mem_correctIdx _ _

/-- C6 witness: the invariants instantiated on the concrete radio page. -/
theorem c6_question_invariants_witness :
    parseQuizFromHtml "http://page/t" radioDoc radioQO = some radioT ∧
    radioQ.variants.length = radioQ.options.length :=
  ⟨rfl, (c6_question_invariants "http://page/t" radioDoc radioQO radioT rfl
    radioQ (by decide)).1⟩

/-- C1: for a radio/checkbox block, an extracted option is correct iff the
non-empty mapping's value at its answer id lower-cases to "1" or "true";
with no (or an empty / falsy) mapping no option is correct;
`len(correct_answer)` is the number of correct options; and the concrete
radio scenario yields 3 options with `correct_answer == [1]`. -/
theorem c1_choice_correctness :
    (∀ (url : String) (m : List (String × JVal)) (fields : List Node),
        radioLoop url (.obj m) fields = some (fields.filterMap (mkRadioOpt url m))) ∧
    (∀ (url : String) (m : List (String × JVal)) (field inp : Node) (o : AnswerOption),
        m ≠ [] → selectInput field = some inp → mkRadioOpt url m field = some o →
        (o.is_correct = true ↔
          (pyLower (pyStr ((jlookup m (pyOrEmpty (attrOf inp "value"))).getD (.str "0"))) = "1" ∨
           pyLower (pyStr ((jlookup m (pyOrEmpty (attrOf inp "value"))).getD (.str "0"))) = "true"))) ∧
    (∀ (url : String) (cm : JVal) (fields : List Node) (opts : List AnswerOption),
        truthy cm = false → radioLoop url cm fields = some opts →
        ∀ o ∈ opts, o.is_correct = false) ∧
    (∀ opts : List AnswerOption, (correctIdx opts).length = opts.countP (·.is_correct)) ∧
    ((parseQuizFromHtml "http://page/t" radioDoc radioQO).map
        (fun t => t.questions.map fun q => (q.options.length, q.correct_answer)) =
      some [(3, [1])]) := by
  refine ⟨radioLoop_eq_filterMap, ?_, ?_, correctIdx_length, rfl⟩
  · intro url m field inp o hm hinp hmk
    unfold mkRadioOpt at hmk
    rw [hinp] at hmk
    simp only [Option.some.injEq] at hmk
    subst hmk
    have hm2 : m.isEmpty = false := by
      cases m with
      | nil => exact absurd rfl hm
      | cons a l => rfl
    simp [correctFlag, valIn1True, hm2]
  · intro url cm fields opts h1 h2
    exact radioLoop_falsy url cm h1 fields opts h2

/-- C1 witness: the correctness test instantiated on a one-field block
whose mapped value is "TRUE" (case-insensitive match). -/
theorem c1_choice_correctness_witness :
    ((("7", JVal.str "TRUE") :: []) ≠ ([] : List (String × JVal))) ∧
    selectInput (answerField "7" [.text "option七"]) =
      some (Node.elem "input" [] [("id", "ays-answer-7"), ("value", "7")] []) ∧
    ((AnswerOption.mk "option七" true []).is_correct = true ↔
      (pyLower (pyStr ((jlookup [("7", JVal.str "TRUE")]
          (pyOrEmpty (attrOf (Node.elem "input" [] [("id", "ays-answer-7"), ("value", "7")] []) "value"))).getD
          (.str "0"))) = "1" ∨
       pyLower (pyStr ((jlookup [("7", JVal.str "TRUE")]
          (pyOrEmpty (attrOf (Node.elem "input" [] [("id", "ays-answer-7"), ("value", "7")] []) "value"))).getD
          (.str "0"))) = "true")) :=
  ⟨List.cons_ne_nil _ _, rfl,
   c1_choice_correctness.2.1 "u" [("7", JVal.str "TRUE")]
     (answerField "7" [.text "option七"]) _ _ (List.cons_ne_nil _ _) rfl rfl⟩

/-- C10: the mapped correctness value goes through `str()` and `.lower()`
before the "1"/"true" comparison, so the JSON boolean `true` and the JSON
number `1` also mark an option correct, and an answer id absent from the
mapping defaults to "0" and is never marked correct. -/
theorem c10_value_coercion :
    (∀ (m : List (String × JVal)) (aid : String),
        correctFlag m aid =
          valIn1True (pyLower (pyStr ((jlookup m aid).getD (.str "0"))))) ∧
    (∀ (m : List (String × JVal)) (aid : String),
        jlookup m aid = some (.bool true) → correctFlag m aid = true) ∧
    (∀ (m : List (String × JVal)) (aid : String),
        jlookup m aid = some (.int 1) → correctFlag m aid = true) ∧
    (∀ (m : List (String × JVal)) (aid : String),
        jlookup m aid = none → correctFlag m aid = false) ∧
    (∀ (url : String) (m : List (String × JVal)) (field inp : Node) (o : AnswerOption),
        selectInput field = some inp → mkRadioOpt url m field = some o →
        o.is_correct = (!m.isEmpty && correctFlag m (pyOrEmpty (attrOf inp "value")))) := by
  refine ⟨fun m aid => rfl, ?_, ?_, ?_, ?_⟩
  · intro m aid h
    unfold correctFlag
    rw [h]
    rfl
  · intro m aid h
    unfold correctFlag
    rw [h]
    rfl
  · intro m aid h
    unfold correctFlag
    rw [h]
    rfl
  · intro url m field inp o hinp hmk
    unfold mkRadioOpt at hmk
    rw [hinp] at hmk
    simp only [Option.some.injEq] at hmk
    subst hmk
    rfl

/-- C10 witness: the JSON number `1` as mapped value marks the option
correct. -/
theorem c10_value_coercion_witness :
    jlookup [("k", JVal.int 1)] "k" = some (.int 1) ∧
    correctFlag [("k", JVal.int 1)] "k" = true :=
  ⟨rfl, c10_value_coercion.2.2.1 [("k", JVal.int 1)] "k" rfl⟩

/-- C2 counterexample: the two-pair matching scenario produces
`["Cat -> 2", "Dog -> 1"]` (DOM order of the pairs), not
`["Dog -> 1", "Cat -> 2"]` as the claim states. -/
theorem c2_matching_order_counterexample :
    (parseQuizFromHtml "http://page/t" matchDoc matchQO).map
        (fun t => t.questions.map fun q => q.variants) = some [["Cat -> 2", "Dog -> 1"]] ∧
    (parseQuizFromHtml "http://page/t" matchDoc matchQO).map
        (fun t => t.questions.map fun q => q.variants) ≠ some [["Dog -> 1", "Cat -> 2"]] :=
  ⟨rfl, by decide⟩

/-- C2 (amended): each produced matching option's text is
`"<choice text> -> <position>"` through the inverse answer-id map (bare
choice text when no position is found), every matching option is marked
correct, and the concrete scenario yields `["Cat -> 2", "Dog -> 1"]` in
DOM order of the pairs, both correct. -/
theorem c2_matching_scenario :
    (∀ (url : String) (m : List (String × JVal)) (pair : Node) (rest : List Node)
        (choice_el match_el : Node),
        selectChoice pair = some choice_el → selectMatch pair = some match_el →
        matchLoop url m (pair :: rest) =
          { text := match invLookup m ((attrOf match_el "data-answer-id").getD "") with
                    | some pos => getText " " choice_el ++ " -> " ++ pos
                    | none => getText " " choice_el
            is_correct := true
            images := imgsOf url choice_el } :: matchLoop url m rest) ∧
    (∀ (url : String) (m : List (String × JVal)) (pairs : List Node),
        ∀ o ∈ matchLoop url m pairs, o.is_correct = true) ∧
    ((parseQuizFromHtml "http://page/t" matchDoc matchQO).map
        (fun t => t.questions.map fun q => q.options.map fun o => (o.text, o.is_correct)) =
      some [[("Cat -> 2", true), ("Dog -> 1", true)]]) := by
  refine ⟨?_, ?_, rfl⟩
  · intro url m pair rest choice_el match_el hc hm
    rw [matchLoop, hc, hm]
  · intro url m pairs
    induction pairs with
    | nil => intro o ho; simp [matchLoop] at ho
    | cons p rest ih =>
      intro o ho
      cases hc : selectChoice p with
      | none =>
        rw [matchLoop, hc] at ho
        exact ih o ho
      | some c =>
        cases hm : selectMatch p with
        | none =>
          rw [matchLoop, hc, hm] at ho
          exact ih o ho
        | some me =>
          rw [matchLoop, hc, hm] at ho
          rcases List.mem_cons.mp ho with rfl | hmem
          · rfl
          · exact ih o hmem

/-- C2 witness: the text-synthesis rule applied to one concrete pair. -/
theorem c2_matching_scenario_witness :
    selectChoice (Node.elem "div" ["ays-matching-field-option"] [] [
        Node.elem "div" ["ays-matching-field-choice"] [] [.text "A"],
        Node.elem "div" ["ays-matching-field-match"] [("data-answer-id", "x")] []]) =
      some (Node.elem "div" ["ays-matching-field-choice"] [] [.text "A"]) ∧
    matchLoop "u" [("1", JVal.str "x")] [Node.elem "div" ["ays-matching-field-option"] [] [
        Node.elem "div" ["ays-matching-field-choice"] [] [.text "A"],
        Node.elem "div" ["ays-matching-field-match"] [("data-answer-id", "x")] []]] =
      [{ text := "A -> 1", is_correct := true, images := [] }] :=
  ⟨rfl, c2_matching_scenario.1 "u" [("1", JVal.str "x")]
    (Node.elem "div" ["ays-matching-field-option"] [] [
        Node.elem "div" ["ays-matching-field-choice"] [] [.text "A"],
        Node.elem "div" ["ays-matching-field-match"] [("data-answer-id", "x")] []]) []
    (Node.elem "div" ["ays-matching-field-choice"] [] [.text "A"])
    (Node.elem "div" ["ays-matching-field-match"] [("data-answer-id", "x")] []) rfl rfl⟩

/-- C3: contrary to the claim (and to the source's own comment "Берём
только текст, без вложенных label для картинок"), `get_text` also collects
the text of labels nested inside the option's label: the option text here
is "Paris Eiffel photo", not "Paris"; the image is still collected as an
absolute URL. -/
theorem c3_nested_label_text :
    (parseQuizFromHtml "http://page/t" nestedLabelDoc []).map
        (fun t => t.questions.map fun q => q.options.map fun o => (o.text, o.images)) =
      some [[("Paris Eiffel photo", ["http://site/eiffel.png"])]] ∧
    ("Paris Eiffel photo" : String) ≠ "Paris" :=
  ⟨rfl, by decide⟩

/-- C4 counterexample: a field with an input control but no label is not
skipped — it contributes an option with empty text and no images. -/
theorem c4_missing_label_counterexample :
    (parseQuizFromHtml "u" noLabelDoc []).map (fun t => t.questions.map fun q => q.options) =
      some [[{ text := "", is_correct := false, images := [] }]] ∧
    ([{ text := "", is_correct := false, images := ([] : List String) }] : List AnswerOption) ≠ [] :=
  ⟨rfl, by decide⟩

/-- C4 (amended): a field without its input control and a matching pair
missing either half are skipped and extraction continues; a field whose
label is missing still yields an option, with empty text and no images. -/
theorem c4_missing_subelements :
    (∀ (url : String) (cm : JVal) (field : Node) (rest : List Node),
        selectInput field = none →
        radioLoop url cm (field :: rest) = radioLoop url cm rest) ∧
    (∀ (url : String) (m : List (String × JVal)) (pair : Node) (rest : List Node),
        selectChoice pair = none →
        matchLoop url m (pair :: rest) = matchLoop url m rest) ∧
    (∀ (url : String) (m : List (String × JVal)) (pair : Node) (rest : List Node),
        selectMatch pair = none →
        matchLoop url m (pair :: rest) = matchLoop url m rest) ∧
    (∀ (url : String) (m : List (String × JVal)) (field inp : Node),
        selectInput field = some inp →
        selectLabel (pyOrEmpty (attrOf inp "id")) field = none →
        mkRadioOpt url m field =
          some { text := "", is_correct := fieldCorrect m field, images := [] }) := by
  refine ⟨radioLoop_skip, ?_, ?_, ?_⟩
  · intro url m pair rest hc
    cases hm : selectMatch pair with
    | none => rw [matchLoop, hc, hm]
    | some me => rw [matchLoop, hc, hm]
  · intro url m pair rest hm
    cases hc : selectChoice pair with
    | none => rw [matchLoop, hc, hm]
    | some c => rw [matchLoop, hc, hm]
  · intro url m field inp hinp hlab
    unfold mkRadioOpt fieldCorrect
    rw [hinp]
    simp only [hlab]

/-- C4 witness: the skip rule applied to a field with no input control. -/
theorem c4_missing_subelements_witness :
    selectInput (Node.elem "div" ["ays-field"] [] [.text "stray"]) = none ∧
    radioLoop "u" (.obj []) [Node.elem "div" ["ays-field"] [] [.text "stray"]] =
      radioLoop "u" (.obj []) [] :=
  ⟨rfl, c4_missing_subelements.1 "u" (.obj []) _ [] rfl⟩

/-- C5 counterexample: a radio question whose mapping marks two answer ids
truthy gets `correct_answer == [0, 1]`, of length 2 — the claimed
`len(correctAnswer) <= 1` bound for single-answer types does not hold for
every configuration. -/
theorem c5_radio_two_correct_counterexample :
    (parseQuizFromHtml "u" twoFieldDoc twoTruthyQO).map
        (fun t => t.questions.map fun q => q.correct_answer) = some [[0, 1]] ∧
    ¬ ([0, 1] : List Nat).length ≤ 1 :=
  ⟨rfl, by decide⟩

/-- C5 (amended): for a radio/checkbox block, `len(correct_answer)` is at
most 1 provided the configuration mapping marks at most one of the block's
answer fields correct; the code itself enforces no such cap. -/
theorem c5_single_answer_bound :
    ∀ (url : String) (m : List (String × JVal)) (fields : List Node)
      (opts : List AnswerOption),
      radioLoop url (.obj m) fields = some opts →
      fields.countP (fieldCorrect m) ≤ 1 →
      (correctIdx opts).length ≤ 1 := by
  intro url m fields opts h hcount
  have h2 := radioLoop_eq_filterMap url m fields
  rw [h] at h2
  simp only [Option.some.injEq] at h2
  subst h2
  rw [correctIdx_length, countP_filterMap_correct]
  exact hcount

/-- C5 witness: the bound instantiated on the concrete three-field radio
block with a single truthy mapping. -/
theorem c5_single_answer_bound_witness :
    radioLoop "http://page/t"
        (.obj [("1", .str "0"), ("2", .str "1"), ("3", .str "0")]) (selectFields radioStep) =
      some [{ text := "Tashkent", is_correct := false, images := [] },
            { text := "Samarkand", is_correct := true, images := [] },
            { text := "Bukhara", is_correct := false, images := [] }] ∧
    (selectFields radioStep).countP
        (fieldCorrect [("1", .str "0"), ("2", .str "1"), ("3", .str "0")]) ≤ 1 ∧
    (correctIdx [{ text := "Tashkent", is_correct := false, images := [] },
                 { text := "Samarkand", is_correct := true, images := [] },
                 { text := "Bukhara", is_correct := false, images := [] }]).length ≤ 1 :=
  ⟨rfl, by decide,
   c5_single_answer_bound "http://page/t" [("1", .str "0"), ("2", .str "1"), ("3", .str "0")]
     (selectFields radioStep) _ rfl (by decide)⟩

/-- C7: a short-text question with a non-empty configured answer string
yields exactly one option — that answer, marked correct, with no images —
and with an absent or falsy answer yields zero options and an empty
`correct_answer` (concrete `question_answer: ""` scenario included). -/
theorem c7_short_text :
    (∀ (cfg : JVal) (s : String),
        dictGetD cfg "question_answer" (.str "") = some (.str s) → s ≠ "" →
        shortTextOptions cfg = some [{ text := s, is_correct := true, images := [] }]) ∧
    (∀ (cfg : JVal) (ans : JVal),
        dictGetD cfg "question_answer" (.str "") = some ans → truthy ans = false →
        shortTextOptions cfg = some []) ∧
    correctIdx [] = [] ∧
    (∀ s : String, correctIdx [{ text := s, is_correct := true, images := [] }] = [0]) ∧
    ((parseQuizFromHtml "http://page/t" shortDoc shortEmptyQO).map
        (fun t => t.questions.map fun q => (q.options, q.correct_answer)) =
      some [([], [])]) := by
  refine ⟨?_, ?_, rfl, fun s => rfl, rfl⟩
  · intro cfg s h hs
    unfold shortTextOptions
    rw [h]
    have hs2 : (s != "") = true := by
      cases he : s == "" with
      | true => exact absurd (eq_of_beq he) hs
      | false => simp [bne, he]
    simp [truthy, hs2, pyStr]
  · intro cfg ans h hf
    unfold shortTextOptions
    rw [h]
    simp [hf]

/-- C7 witness: the single-option rule applied to a concrete short-text
config with answer "42". -/
theorem c7_short_text_witness :
    dictGetD (.obj [("question_type", .str "short_text"), ("question_answer", .str "42")])
        "question_answer" (.str "") = some (.str "42") ∧
    shortTextOptions (.obj [("question_type", .str "short_text"), ("question_answer", .str "42")]) =
      some [{ text := "42", is_correct := true, images := [] }] :=
  ⟨rfl, c7_short_text.1 _ "42" rfl (by decide)⟩

/-- C8 counterexample: when the only config entry fails to decode and the
block carries `data-type="matching"`, the fallback still marks its option
correct — the claimed "no option in that block is marked correct" fails
for the matching fallback. -/
theorem c8_matching_fallback_counterexample :
    extractQuizOptions (fun _ => none) [("9", "badtoken")] = [] ∧
    (parsePage (fun _ => none) "u" matchFallbackDoc [("9", "badtoken")]).map
        (fun t => t.questions.map fun q => q.options.map (·.is_correct)) = some [[true]] ∧
    ([[true]] : List (List Bool)) ≠ [[false]] :=
  ⟨rfl, rfl, by decide⟩

/-- C8 (amended): a match whose token fails to decode or parse is dropped
while every other entry is still extracted in order; a block whose id is
absent falls back to its `data-type` attribute, else to radio; with the
empty fallback config no radio/checkbox option is marked correct
(matching-fallback options are still always marked correct); concrete
scenario: failed decode plus no type attribute gives a radio block with no
correct options. -/
theorem c8_config_failure_isolation :
    (∀ (decode : String → Option JVal) (pre post : List (String × String))
        (qid b64 : String), decode b64 = none →
        extractQuizOptions decode (pre ++ (qid, b64) :: post) =
          extractQuizOptions decode (pre ++ post)) ∧
    (∀ (step : Node) (s : String), attrOf step "data-type" = some s → s ≠ "" →
        effType none step = .str s) ∧
    (∀ step : Node, attrOf step "data-type" = none → effType none step = .str "radio") ∧
    (∀ (url : String) (fields : List Node) (opts : List AnswerOption),
        radioLoop url (.obj []) fields = some opts →
        ∀ o ∈ opts, o.is_correct = false) ∧
    ((parsePage (fun _ => none) "u" radioFallbackDoc [("9", "badtoken")]).map
        (fun t => t.questions.map fun q => q.options.map (·.is_correct)) =
      some [[false]]) := by
  refine ⟨?_, ?_, ?_, ?_, rfl⟩
  · intro decode pre post qid b64 h
    simp [extractQuizOptions, List.filterMap_append, List.filterMap_cons, h]
  · intro step s h hs
    have hs2 : (s == "") = false := by
      cases he : s == "" with
      | true => exact absurd (eq_of_beq he) hs
      | false => rfl
    simp [effType, h, hs2]
  · intro step h
    simp [effType, h]
  · intro url fields opts h
    exact radioLoop_falsy url (.obj []) rfl fields opts h

/-- C8 witness: a failed middle entry is dropped, its neighbours kept. -/
theorem c8_config_failure_isolation_witness :
    ((fun t => if t == "bad" then none else some (JVal.str t)) "bad" = none) ∧
    extractQuizOptions (fun t => if t == "bad" then none else some (JVal.str t))
        ([("a", "x")] ++ ("q", "bad") :: [("b", "y")]) =
      extractQuizOptions (fun t => if t == "bad" then none else some (JVal.str t))
        ([("a", "x")] ++ [("b", "y")]) :=
  ⟨rfl, c8_config_failure_isolation.1 _ [("a", "x")] [("b", "y")] "q" "bad" rfl⟩

/-- C9: resolving an already-absolute URL (one carrying its own scheme)
against any base returns it unchanged, so resolving twice equals resolving
once. -/
theorem c9_urljoin_idempotent :
    ∀ base u : String, hasScheme u = true →
      urljoin base u = u ∧ urljoin base (urljoin base u) = urljoin base u := by
  intro base u h
  have hu : (u == "") = false := by
    cases he : u == "" with
    | true =>
      have : u = "" := eq_of_beq he
      subst this
      exact absurd h (by decide)
    | false => rfl
  have h1 : urljoin base u = u := by
    unfold urljoin
    cases hb : base == "" with
    | true => simp
    | false => simp [hu, h]
  refine ⟨h1, ?_⟩
  rw [h1]
  exact h1

/-- C9 witness: a concrete absolute image URL survives resolution against
the page URL. -/
theorem c9_urljoin_idempotent_witness :
    hasScheme "https://cdn.example/img.png" = true ∧
    urljoin "http://info-master.uz/t/" "https://cdn.example/img.png" =
      "https://cdn.example/img.png" :=
  ⟨by decide,
   (c9_urljoin_idempotent "http://info-master.uz/t/" "https://cdn.example/img.png" (by decide)).1⟩

end ParsingInfo

